import Mathlib

/-!
Verification of the PipeLLM session-daemon subsystem (src/PipeLLM.py).

The Python source is shallowly embedded: JSON request/response objects are
association lists of string fields, the daemon's per-connection handler
`daemon_handle` becomes a pure function over the list of incoming wire
events of one connection, the server's per-connection loop becomes a fold
over a list of connections, and the client's connect-or-spawn logic becomes
a function of an oracle describing which connect attempts succeed.
-/

namespace PipeLLM

/-- A JSON object whose fields are strings, as used by the wire protocol
(`{"action": ..., "data": ...}` requests, `{"status"|"type"|"data": ...}`
responses).  Fields are kept in insertion order, as `json.dumps` does. -/
abbrev JObj : Type := List (String × String)

/-- `d.get(k)` on a parsed JSON object: the value of the last binding of `k`
(later bindings win, as in Python dicts built by `json.loads`). -/
def jget (k : String) : JObj → Option String
  | [] => none
  | (k2, v) :: rest =>
    match jget k rest with
    | some w => some w
    | none => if k2 = k then some v else none

/-- One event seen by `recv_json` on the daemon side of a connection:
a line parsing to a JSON object, a line that is malformed JSON
(`json.loads` raises, uncaught inside `recv_json`), or end of input
(`readline` returns an empty byte string, or a network error that
`recv_json` catches and turns into `None`). -/
inductive WireMsg where
  | parsed (req : JObj)
  | malformed
  | eof
deriving DecidableEq, Repr

/-- How `daemon_handle` left one connection. -/
inductive ConnOutcome where
  /-- The loop broke (`recv_json` returned `None`, or the parsed object was
  falsy) and the `finally` block closed the writer. -/
  | closedClean
  /-- An uncaught exception (e.g. `json.JSONDecodeError` from a malformed
  line) escaped the loop; the `finally` block still closed the writer and
  the exception died with the per-connection task, leaving the server loop
  running. -/
  | closedExn
  /-- All supplied events were consumed with the handler still waiting for
  the next request; the connection is open. -/
  | openWaiting
deriving DecidableEq, Repr

/-- Response sent for `set`/`clear`: `{"status": "ok"}`. -/
def respOk : JObj := [("status", "ok")]

/-- Response sent for `get`: `{"type": "context", "data": state.context}`
(source line 308). -/
def respGet (ctx : String) : JObj := [("type", "context"), ("data", ctx)]

/-- The `get` request object `{"action": "get"}`. -/
def reqGet : JObj := [("action", "get")]

/-- The `set` request object `{"action": "set", "data": d}`. -/
def reqSet (d : String) : JObj := [("action", "set"), ("data", d)]

/-- The `clear` request object `{"action": "clear"}`. -/
def reqClear : JObj := [("action", "clear")]

/-- Embedding of `daemon_handle` (source lines 299-321) applied to the
events of one connection, starting from context `ctx`.  Returns the
responses written, the context after the connection, and how the
connection was left.  Dispatch follows the source: a falsy object breaks
the loop; `get` answers with `respGet` and leaves the context; `set`
stores `data.get("data", "")` and answers `respOk`; `clear` stores `""`
and answers `respOk`; any other action falls through every branch and the
loop silently reads the next request. -/
def daemonHandle : List WireMsg → String → List JObj × String × ConnOutcome
  | [], ctx => ([], ctx, ConnOutcome.openWaiting)
  | WireMsg.eof :: _, ctx => ([], ctx, ConnOutcome.closedClean)
  | WireMsg.malformed :: _, ctx => ([], ctx, ConnOutcome.closedExn)
  | WireMsg.parsed req :: rest, ctx =>
    if req.isEmpty then ([], ctx, ConnOutcome.closedClean)
    else if jget "action" req = some "get" then
      let r := daemonHandle rest ctx
      (respGet ctx :: r.1, r.2)
    else if jget "action" req = some "set" then
      let r := daemonHandle rest ((jget "data" req).getD "")
      (respOk :: r.1, r.2)
    else if jget "action" req = some "clear" then
      let r := daemonHandle rest ""
      (respOk :: r.1, r.2)
    else daemonHandle rest ctx

/-- The daemon's serving loop at the granularity of whole connections: each
accepted connection is handled by `daemonHandle` against the one shared
`State`, and the server keeps accepting regardless of how the previous
connection ended (a per-connection exception only kills that connection's
task).  Returns each connection's responses and outcome, and the final
context. -/
def daemonServe : List (List WireMsg) → String → List (List JObj × ConnOutcome) × String
  | [], ctx => ([], ctx)
  | c :: rest, ctx =>
    let r := daemonHandle c ctx
    let s := daemonServe rest r.2.1
    ((r.1, r.2.2) :: s.1, s.2)

/-- Client-side reading of a response (source line 231):
`context = msg.get("data", "") if msg else ""` — a missing response is
treated as empty context. -/
def clientContextOf : Option JObj → String
  | none => ""
  | some r => (jget "data" r).getD ""

/-- The `get` response object prescribed by the spec's words: exactly one
field, `data`.  Stated from the spec (not the source) for comparison with
the implementation's `respGet`. -/
def specGetResponse (ctx : String) : JObj := [("data", ctx)]

/-- `SOCKET_PREFIX` in the source (line 8): the fixed namespace of the
session addresses.  Its first character is the NUL byte, which on Linux
places the unix socket in the abstract namespace. -/
def SOCKET_BASE : String := "\x00llm-daemon-"

/-- The NUL character. -/
def nulChar : Char := Char.ofNat 0

/-- Decimal digit character ('0' has code 48). -/
def digitChar (d : Nat) : Char := Char.ofNat (48 + d)

/-- Inverse of `digitChar` on decimal digits. -/
def charToDigit (c : Char) : Nat := c.toNat - 48

/-- Little-endian decimal digits of `n`, with explicit fuel so the
definition is structural (the fuel `n` itself always suffices since
`n / 10 < n` for `n > 0`). -/
def decDigitsAux : Nat → Nat → List Nat
  | 0, _ => []
  | _ + 1, 0 => []
  | fuel + 1, n + 1 => ((n + 1) % 10) :: decDigitsAux fuel ((n + 1) / 10)

/-- Little-endian decimal digits of `n` (empty for 0). -/
def decDigits (n : Nat) : List Nat := decDigitsAux n n

/-- Value of a little-endian decimal digit list. -/
def fromDecDigits : List Nat → Nat
  | [] => 0
  | d :: rest => d + 10 * fromDecDigits rest

/-- Embedding of Python `str(shell_pid)`: the decimal representation of a
nonnegative integer, most significant digit first, `"0"` for zero. -/
def natToDec (n : Nat) : String :=
  if n = 0 then "0" else String.mk (((decDigits n).map digitChar).reverse)

/-- `get_socket_path` (source lines 24-25): `SOCKET_PREFIX + str(shell_pid)`. -/
def get_socket_path (shell_pid : Nat) : String := SOCKET_BASE ++ natToDec shell_pid

/-- Decode a decimal string back to its value (left inverse of `natToDec`). -/
def decodeDec (s : String) : Nat := fromDecDigits ((s.data.map charToDigit).reverse)

/-- Does a character list contain the NUL character? -/
def hasNulChar : List Char → Bool
  | [] => false
  | c :: rest => c == nulChar || hasNulChar rest

/-- Modelled from Python semantics: `os.path.exists` is `False` for any
path containing an embedded NUL byte (the `ValueError` raised for such a
path is swallowed), so such a path can never be seen on the filesystem. -/
def pathCanExistOnFilesystem (s : String) : Bool := !hasNulChar s.data

/-- Modelled from OS semantics: a unix socket whose address begins with a
NUL byte lives in the abstract namespace and is reclaimed by the kernel
the moment the owning process exits; only a non-abstract socket leaves a
filesystem entry behind. -/
def socketIsAbstract (s : String) : Bool :=
  match s.data with
  | [] => false
  | c :: _ => c == nulChar

/-- The daemon's termination paths named by the spec. -/
inductive TermPath where
  | livenessFailure
  | sigterm
  | normalExit
deriving DecidableEq, Repr

/-- Which exit primitive each termination path uses, from the source:
`check_shell_alive` calls `os._exit(0)` on liveness loss (line 331), the
SIGTERM handler calls `os._exit(0)` (line 348), and every other path ends
by normal interpreter exit. -/
def exitsViaOsExit : TermPath → Bool
  | TermPath.livenessFailure => true
  | TermPath.sigterm => true
  | TermPath.normalExit => false

/-- Modelled from Python semantics: `os._exit` terminates the process
immediately without running `atexit` hooks, so the hook registered by
`run_daemon_loop` (line 347) runs only on normal interpreter exit. -/
def atexitHooksRun (p : TermPath) : Bool := !exitsViaOsExit p

/-- The registered `cleanup` function (source lines 340-345) unlinks the
socket path only when `os.path.exists(socket_path)` holds; `fsHasPath`
abstracts the actual filesystem state. -/
def cleanupUnlinks (socketPath : String) (fsHasPath : Bool) : Bool :=
  fsHasPath && pathCanExistOnFilesystem socketPath

/-- The claim's mechanism: on termination path `p` the channel's backing
resource is removed by the guaranteed-on-exit cleanup hook. -/
def removedViaHook (socketPath : String) (p : TermPath) (fsHasPath : Bool) : Bool :=
  atexitHooksRun p && cleanupUnlinks socketPath fsHasPath

/-- Whether the channel address still exists after the daemon terminates
along path `p`: an abstract socket is reclaimed by the kernel with the
process; a filesystem socket survives unless the cleanup hook ran and
unlinked it. -/
def addressExistsAfterTermination (socketPath : String) (p : TermPath)
    (fsHasPath : Bool) : Bool :=
  if socketIsAbstract socketPath then false
  else fsHasPath && !removedViaHook socketPath p fsHasPath

/-- `check_shell_alive` (source lines 324-331): every poll (5 seconds
apart, sleeping first) it probes the shell pid and calls `os._exit(0)` at
the first poll where the process no longer exists.  `alive k` says whether
the shell is alive at the `k`-th poll; the result is the index of the
poll at which the daemon exits, searching the first `fuel` polls. -/
def firstDeadPoll (alive : Nat → Bool) : Nat → Nat → Option Nat
  | _, 0 => none
  | k, fuel + 1 => if alive k then firstDeadPoll alive (k + 1) fuel else some k

/-- The liveness poll interval, seconds: `await asyncio.sleep(5)`. -/
def POLL_INTERVAL_SECONDS : Nat := 5

/-- Number of reconnect attempts after spawning the daemon:
`for _ in range(20)` (source line 204). -/
def MAX_CONNECT_RETRIES : Nat := 20

/-- Delay before each reconnect attempt, milliseconds:
`await asyncio.sleep(0.1)` (source line 205). -/
def RETRY_DELAY_MS : Nat := 100

/-- The error printed to stderr when every reconnect attempt fails
(source line 212). -/
def DAEMON_START_ERROR : String := "[Error] Daemon failed to start."

/-- Result of the client's connect-or-start phase. -/
structure StartOutcome where
  spawned : Bool
  attempts : Nat
  connected : Bool
  errors : List String
  exitCode : Nat
deriving DecidableEq, Repr

/-- The retry loop: attempts are numbered from `i`, at most `n` of them;
returns the index of the first successful one. -/
def retryConnect (ok : Nat → Bool) : Nat → Nat → Option Nat
  | _, 0 => none
  | i, n + 1 => if ok i then some i else retryConnect ok (i + 1) n

/-- Embedding of the connect-or-start block of `run_client` (source lines
199-213).  `ok i` says whether the `i`-th connect attempt reaches a
daemon (attempt 0 is the initial connect; attempts 1..20 follow the
spawn).  On exhaustion the client prints one error and returns from
`run_client`, after which `main` finishes normally, so the process exit
status is 0. -/
def connectOrStart (ok : Nat → Bool) : StartOutcome :=
  if ok 0 then ⟨false, 1, true, [], 0⟩
  else
    match retryConnect ok 1 MAX_CONNECT_RETRIES with
    | some i => ⟨true, i + 1, true, [], 0⟩
    | none => ⟨true, MAX_CONNECT_RETRIES + 1, false, [DAEMON_START_ERROR], 0⟩

/-- The parsed command-line arguments of `parse_args` that the
daemon-connected client logic consults. -/
structure Args where
  short : Bool
  medium : Bool
  long : Bool
  thinking : Bool
  clear : Bool
  print_context : Bool
  isolated : Bool
  help : Bool
  prompt : List String
deriving DecidableEq, Repr

/-- An invocation with no flags and no positional prompt. -/
def noArgs : Args := ⟨false, false, false, false, false, false, false, false, []⟩

/-- Python whitespace, as stripped by `str.strip()`. -/
def isPySpace (c : Char) : Bool :=
  c == ' ' || c == '\t' || c == '\n' || c == '\r'
    || c == Char.ofNat 11 || c == Char.ofNat 12

/-- Embedding of Python `str.strip()`: drop leading and trailing
whitespace. -/
def pyStrip (s : String) : String :=
  String.mk (((s.data.dropWhile isPySpace).reverse.dropWhile isPySpace).reverse)

/-- `" ".join(args.prompt).strip()` (source line 136). -/
def userPrompt (a : Args) : String := pyStrip (String.intercalate " " a.prompt)

/-- Python truthiness of `stdin_data`: `None` (a tty) and the empty string
are both falsy. -/
def hasStdin : Option String → Bool
  | none => false
  | some s => !s.isEmpty

/-- The piped input text, empty when there is none. -/
def stdinVal : Option String → String
  | none => ""
  | some s => s

/-- The externally observable effects of one client invocation on the
daemon subsystem. -/
structure ClientTrace where
  /-- whether `run_daemon` was called -/
  spawned : Bool
  /-- the requests written to the daemon connection, in order -/
  sent : List JObj
  /-- whether a probe connection (connect then immediately close, no
  message) was opened -/
  probeOnly : Bool
  /-- `some b`: printed "Daemon running"/"Daemon not running" -/
  reportedDaemon : Option Bool
  /-- lines printed to stderr -/
  errors : List String
  /-- process exit status -/
  exitCode : Nat
deriving DecidableEq, Repr

/-- Embedding of `run_client` (source lines 122-293) at the granularity of
its daemon interaction.  `ok i` is the connect oracle of `connectOrStart`
(`ok 0` doubles as "a daemon is listening" for the probe branch);
`daemonCtx` is the `data` field of the daemon's reply to the client's
`get`; `apiKeySet` is whether `GEMINI_API_KEY` is set; `gen` abstracts the
excluded prompt-assembly/generation collaborator (applied to the context
and the user prompt).  Prompt assembly and printing of the response are
outside the modelled subsystem; the trace records spawning, the protocol
messages sent, probing, and stderr errors. -/
def run_client (a : Args) (stdin : Option String) (ok : Nat → Bool)
    (daemonCtx : String) (apiKeySet : Bool) (gen : String → String → String) :
    ClientTrace :=
  if a.help then ⟨false, [], false, none, [], 0⟩
  else if a.isolated then
    if !hasStdin stdin && (userPrompt a).isEmpty then
      ⟨false, [], false, none, ["[Error] Isolated mode requires a prompt or stdin."], 0⟩
    else if !apiKeySet then
      ⟨false, [], false, none, ["[Error] Missing GEMINI_API_KEY"], 0⟩
    else ⟨false, [], false, none, [], 0⟩
  else if !hasStdin stdin && (userPrompt a).isEmpty
      && !a.print_context && !a.clear then
    ⟨false, [], true, some (ok 0), [], 0⟩
  else
    let conn := connectOrStart ok
    if !conn.connected then
      ⟨conn.spawned, [], false, none, conn.errors, conn.exitCode⟩
    else if a.clear then ⟨conn.spawned, [reqClear], false, none, [], 0⟩
    else if a.print_context then ⟨conn.spawned, [reqGet], false, none, [], 0⟩
    else
      let ctx2 :=
        if hasStdin stdin then
          (if !daemonCtx.isEmpty then daemonCtx ++ "\n\n" else "")
            ++ "[Context]\n" ++ pyStrip (stdinVal stdin)
        else daemonCtx
      if (userPrompt a).isEmpty then
        if hasStdin stdin then
          ⟨conn.spawned, [reqGet, reqSet ctx2], false, none, [], 0⟩
        else ⟨conn.spawned, [reqGet], false, none, [], 0⟩
      else if !apiKeySet then
        ⟨conn.spawned, [reqGet], false, none, ["[Error] Missing GEMINI_API_KEY"], 0⟩
      else
        let resp := gen ctx2 (userPrompt a)
        ⟨conn.spawned,
          [reqGet,
            reqSet (ctx2 ++ "\n\n[Prompt]\n" ++ userPrompt a
              ++ "\n\n[Response]\n" ++ pyStrip resp)],
          false, none, [], 0⟩

end PipeLLM

namespace PipeLLM

/-- C8: round trip — `set(X)` followed by `get()` answers `ok` then the
`get` response whose `data` field is exactly `X`, for any text `X`
(empty and multi-line included) and any prior context. -/
theorem C8_roundtrip (X ctx : String) :
    daemonHandle [WireMsg.parsed (reqSet X), WireMsg.parsed reqGet] ctx
      = ([respOk, respGet X], X, ConnOutcome.openWaiting)
    ∧ jget "data" (respGet X) = some X :=
  ⟨rfl, rfl⟩

/-- C9: in-order processing on one connection — `set(A)` then `set(B)` then
`get()` yields responses `ok`, `ok`, then the context `B`: last write wins,
each request is dispatched and answered before the next is read (the
handler is a sequential read-dispatch-respond loop). -/
theorem C9_ordering (A B ctx : String) :
    daemonHandle
        [WireMsg.parsed (reqSet A), WireMsg.parsed (reqSet B), WireMsg.parsed reqGet] ctx
      = ([respOk, respOk, respGet B], B, ConnOutcome.openWaiting) :=
  rfl

/-- C10: a `set` request without a `data` field sets the context to the
empty string (`data.get("data", "")`) and is still answered `{"status":
"ok"}`; it is not rejected or ignored. -/
theorem C10_set_missing_data (ctx : String) :
    daemonHandle [WireMsg.parsed [("action", "set")]] ctx
      = ([respOk], "", ConnOutcome.openWaiting) :=
  rfl

/-- C1 fails as stated: after `set("hello")`, the `get` reply is
`{"type": "context", "data": "hello"}` — it carries a `type` field in
addition to `data`, so it is not exactly the one-field object
`{"data": "hello"}` the claim (and the spec's response table) prescribes. -/
theorem C1_counterexample :
    (daemonHandle [WireMsg.parsed (reqSet "hello"), WireMsg.parsed reqGet] "").1
      = [respOk, [("type", "context"), ("data", "hello")]]
    ∧ respGet "hello" ≠ specGetResponse "hello" := by
  decide

/-- C1 amended: every `get` request is answered with exactly one JSON
object whose `data` field is the current context; the object additionally
carries a `"type": "context"` field (it is not the bare `{"data": ...}`
object). -/
theorem C1_get_response (ctx : String) (rest : List WireMsg) :
    daemonHandle (WireMsg.parsed reqGet :: rest) ctx
      = (respGet ctx :: (daemonHandle rest ctx).1, (daemonHandle rest ctx).2)
    ∧ jget "data" (respGet ctx) = some ctx
    ∧ respGet ctx = [("type", "context"), ("data", ctx)] :=
  ⟨rfl, rfl, rfl⟩

/-- C2 fails as stated: an unsupported action does not close the
connection.  On the events [action "frobnicate", action "get"] the handler
ignores the unknown action without replying and still serves the following
`get` on the same connection, ending with the connection open. -/
theorem C2_counterexample :
    daemonHandle
        [WireMsg.parsed [("action", "frobnicate")], WireMsg.parsed reqGet] "c"
      = ([respGet "c"], "c", ConnOutcome.openWaiting) := by
  decide

/-- C2 amended: a malformed JSON line terminates that single exchange — no
response, the connection is closed (by the handler's cleanup, the escaping
exception dying with the per-connection task), and the daemon continues
serving the remaining connections with unchanged state; an unsupported
action, however, does not close the connection: it is ignored with no
response and later requests on the same connection are still served; a
client that gets no response falls back to empty context. -/
theorem C2_failure_semantics (ctx : String) (conns : List (List WireMsg))
    (rest : List WireMsg) (a : String)
    (h : a ≠ "get" ∧ a ≠ "set" ∧ a ≠ "clear") :
    daemonServe ([WireMsg.malformed] :: conns) ctx
      = ((([], ConnOutcome.closedExn) :: (daemonServe conns ctx).1),
          (daemonServe conns ctx).2)
    ∧ daemonHandle (WireMsg.parsed [("action", a)] :: rest) ctx
        = daemonHandle rest ctx
    ∧ clientContextOf none = "" := by
  refine ⟨rfl, ?_, rfl⟩
  simp [daemonHandle, jget, h.1, h.2.1, h.2.2]

/-- Witness for C2_failure_semantics at concrete inputs. -/
theorem decDigitsAux_inv (fuel : Nat) :
    ∀ n, n ≤ fuel → fromDecDigits (decDigitsAux fuel n) = n := by
  induction fuel with
  | zero =>
    intro n h
    have hn : n = 0 := Nat.le_zero.mp h
    subst hn
    rfl
  | succ m ih =>
    intro n h
    match n with
    | 0 => rfl
    | k + 1 =>
      have hlt : (k + 1) / 10 < k + 1 := Nat.div_lt_self (Nat.succ_pos k) (by omega)
      have hle : (k + 1) / 10 ≤ m := by omega
      show fromDecDigits (((k + 1) % 10) :: decDigitsAux m ((k + 1) / 10)) = k + 1
      simp only [fromDecDigits, ih _ hle]
      omega

theorem decDigitsAux_lt (fuel : Nat) :
    ∀ n d, d ∈ decDigitsAux fuel n → d < 10 := by
  induction fuel with
  | zero =>
    intro n d h
    simp [decDigitsAux] at h
  | succ m ih =>
    intro n d h
    match n with
    | 0 => simp [decDigitsAux] at h
    | k + 1 =>
      simp only [decDigitsAux, List.mem_cons] at h
      rcases h with h | h
      · subst h; exact Nat.mod_lt _ (by omega)
      · exact ih _ _ h

theorem charToDigit_digitChar (d : Nat) (h : d < 10) :
    charToDigit (digitChar d) = d := by
  interval_cases d <;> decide

theorem decodeDec_natToDec (n : Nat) : decodeDec (natToDec n) = n := by
  by_cases h : n = 0
  · subst h; decide
  · have hdata : (natToDec n).data = ((decDigits n).map digitChar).reverse := by
      simp [natToDec, h]
    have hmap : ((decDigits n).map digitChar).map charToDigit = decDigits n := by
      rw [List.map_map]
      have : ∀ d ∈ decDigits n, (charToDigit ∘ digitChar) d = id d := by
        intro d hd
        exact charToDigit_digitChar d (decDigitsAux_lt n n d hd)
      rw [List.map_congr_left this, List.map_id]
    simp only [decodeDec, hdata, List.map_reverse, List.reverse_reverse, hmap]
    exact decDigitsAux_inv n n (Nat.le_refl n)

theorem natToDec_inj (a b : Nat) (h : natToDec a = natToDec b) : a = b := by
  have h2 := congrArg decodeDec h
  rwa [decodeDec_natToDec, decodeDec_natToDec] at h2

theorem string_append_cancel_left (s t u : String) (h : s ++ t = s ++ u) :
    t = u := by
  cases s with
  | mk sd =>
    cases t with
    | mk td =>
      cases u with
      | mk ud =>
        have hd : sd ++ td = sd ++ ud := congrArg String.data h
        have := List.append_cancel_left hd
        simp [this]

/-- C7: `get_socket_path` is a pure function of the shell pid (it is a Lean
function of `shell_pid` alone) and is injective: distinct shell pids get
distinct session addresses. -/
theorem C7_addressFor_injective (p1 p2 : Nat) (h : p1 ≠ p2) :
    get_socket_path p1 ≠ get_socket_path p2 := by
  intro he
  exact h (natToDec_inj p1 p2 (string_append_cancel_left SOCKET_BASE _ _ he))

/-- Witness for C7_addressFor_injective at pids 1 and 2. -/
theorem C7_addressFor_injective_witness :
    get_socket_path 1 ≠ get_socket_path 2 :=
  C7_addressFor_injective 1 2 (by decide)

theorem socket_path_data (pid : Nat) :
    (get_socket_path pid).data = nulChar :: ("llm-daemon-".data ++ (natToDec pid).data) :=
  rfl

theorem socket_path_isAbstract (pid : Nat) :
    socketIsAbstract (get_socket_path pid) = true := by
  simp [socketIsAbstract, socket_path_data]

theorem socket_path_hasNul (pid : Nat) :
    hasNulChar (get_socket_path pid).data = true := by
  rw [socket_path_data]
  simp [hasNulChar]

/-- C3 fails as stated: on the liveness-failure termination path the
daemon exits with `os._exit(0)`, which bypasses the registered `atexit`
hook, so the channel's backing resource is not removed by the
guaranteed-on-exit cleanup hook on that path (shown at pid 1234 with the
path even present on the filesystem). -/
theorem C3_counterexample :
    removedViaHook (get_socket_path 1234) TermPath.livenessFailure true = false := by
  decide

/-- C3 amended: the daemon registers an `atexit` cleanup hook, but the hook
never removes the channel's backing resource: the liveness-failure and
SIGTERM paths exit through `os._exit`, which skips `atexit` hooks (they
run only on normal interpreter exit), and the address contains an embedded
NUL byte so the hook's `os.path.exists` guard can never hold.  A later
client nevertheless sees no dead entry on any termination path, because
the address is an abstract-namespace socket that the kernel reclaims when
the daemon process exits. -/
theorem C3_cleanup (pid : Nat) (p : TermPath) (fsHasPath : Bool) :
    removedViaHook (get_socket_path pid) p fsHasPath = false
    ∧ addressExistsAfterTermination (get_socket_path pid) p fsHasPath = false
    ∧ (atexitHooksRun p = true ↔ p = TermPath.normalExit) := by
  refine ⟨?_, ?_, ?_⟩
  · simp [removedViaHook, cleanupUnlinks, pathCanExistOnFilesystem, socket_path_hasNul]
  · simp [addressExistsAfterTermination, socket_path_isAbstract]
  · cases p <;> simp [atexitHooksRun, exitsViaOsExit]

theorem firstDeadPoll_le (alive : Nat → Bool) :
    ∀ fuel start d, start ≤ d → d < start + fuel → alive d = false →
      ∃ k, start ≤ k ∧ k ≤ d ∧ firstDeadPoll alive start fuel = some k := by
  intro fuel
  induction fuel with
  | zero => intro start d h1 h2 _; omega
  | succ m ih =>
    intro start d h1 h2 hd
    by_cases hs : alive start = true
    · have hne : start ≠ d := by
        intro he
        rw [he, hd] at hs
        cases hs
      obtain ⟨k, hk1, hk2, hk3⟩ := ih (start + 1) d (by omega) (by omega) hd
      refine ⟨k, by omega, hk2, ?_⟩
      simp [firstDeadPoll, hs, hk3]
    · have hs2 : alive start = false := by
        cases hx : alive start
        · rfl
        · exact absurd hx hs
      refine ⟨start, Nat.le_refl _, h1, ?_⟩
      simp [firstDeadPoll, hs2]

/-- C5: once the owning shell's pid is dead (poll `d` finds it gone), the
background liveness loop makes the daemon exit at some poll no later than
`d` — i.e. within one polling interval of the death — via `os._exit`
(which ends the whole process, so no further connections are accepted),
and the channel address no longer exists afterward (the abstract socket
dies with the process). -/
theorem C5_liveness (alive : Nat → Bool) (d fuel pid : Nat) (fsHasPath : Bool)
    (h1 : alive d = false) (h2 : d < fuel) :
    (∃ k, k ≤ d ∧ firstDeadPoll alive 0 fuel = some k)
    ∧ exitsViaOsExit TermPath.livenessFailure = true
    ∧ addressExistsAfterTermination (get_socket_path pid) TermPath.livenessFailure
        fsHasPath = false := by
  refine ⟨?_, rfl, ?_⟩
  · obtain ⟨k, _, hk2, hk3⟩ :=
      firstDeadPoll_le alive fuel 0 d (Nat.zero_le d) (by omega) h1
    exact ⟨k, hk2, hk3⟩
  · simp [addressExistsAfterTermination, socket_path_isAbstract]

/-- Witness for C5_liveness: a shell dead from poll 3 on, fuel 5, pid 7. -/
theorem C5_liveness_witness :
    (∃ k, k ≤ 3 ∧ firstDeadPoll (fun t => decide (t < 3)) 0 5 = some k)
    ∧ exitsViaOsExit TermPath.livenessFailure = true
    ∧ addressExistsAfterTermination (get_socket_path 7) TermPath.livenessFailure
        true = false :=
  C5_liveness (fun t => decide (t < 3)) 3 5 7 true (by decide) (by decide)

theorem C2_failure_semantics_witness :
    daemonServe ([WireMsg.malformed] :: [[WireMsg.parsed reqGet]]) "c"
      = ((([], ConnOutcome.closedExn)
            :: (daemonServe [[WireMsg.parsed reqGet]] "c").1),
          (daemonServe [[WireMsg.parsed reqGet]] "c").2)
    ∧ daemonHandle (WireMsg.parsed [("action", "frobnicate")] :: [WireMsg.parsed reqGet]) "c"
        = daemonHandle [WireMsg.parsed reqGet] "c"
    ∧ clientContextOf none = "" :=
  C2_failure_semantics "c" [[WireMsg.parsed reqGet]] [WireMsg.parsed reqGet]
    "frobnicate" (by decide)

theorem retryConnect_none (ok : Nat → Bool) :
    ∀ n i, (∀ k, i ≤ k → k < i + n → ok k = false) →
      retryConnect ok i n = none := by
  intro n
  induction n with
  | zero => intro i _; rfl
  | succ m ih =>
    intro i h
    have h0 : ok i = false := h i (Nat.le_refl i) (by omega)
    simp only [retryConnect, h0, Bool.false_eq_true, if_false]
    exact ih (i + 1) (fun k hk1 hk2 => h k (by omega) (by omega))

/-- C4 fails as stated: when no connect attempt ever succeeds, the client
spawns a daemon, makes 21 bounded attempts in all, reports the single
error "[Error] Daemon failed to start." — but `run_client` then simply
returns, so the invocation ends with exit status 0, not a nonzero
outcome. -/
theorem C4_counterexample :
    connectOrStart (fun _ => false)
      = ⟨true, MAX_CONNECT_RETRIES + 1, false, [DAEMON_START_ERROR], 0⟩
    ∧ ¬ (connectOrStart (fun _ => false)).exitCode ≠ 0 := by
  decide

/-- C4 amended: when no daemon is reachable the client spawns one and
retries with bounded backoff (20 retries at 100 ms after the initial
attempt); if every attempt fails it reports exactly one "daemon failed to
start" error and does not hang (exactly 21 attempts are made), and the
invocation returns normally with exit status 0 (not nonzero). -/
theorem C4_spawn_retry (ok : Nat → Bool)
    (h : ∀ i, i ≤ MAX_CONNECT_RETRIES → ok i = false) :
    connectOrStart ok
      = ⟨true, MAX_CONNECT_RETRIES + 1, false, [DAEMON_START_ERROR], 0⟩ := by
  have h0 : ok 0 = false := h 0 (by omega)
  have hnone : retryConnect ok 1 MAX_CONNECT_RETRIES = none := by
    refine retryConnect_none ok MAX_CONNECT_RETRIES 1 ?_
    intro k hk1 hk2
    exact h k (by simp [MAX_CONNECT_RETRIES] at hk2 ⊢; omega)
  simp [connectOrStart, h0, hnone]

/-- Witness for C4_spawn_retry with every attempt failing. -/
theorem C4_spawn_retry_witness :
    connectOrStart (fun _ => false)
      = ⟨true, MAX_CONNECT_RETRIES + 1, false, [DAEMON_START_ERROR], 0⟩ :=
  C4_spawn_retry (fun _ => false) (fun _ _ => rfl)

/-- C6: a client invocation with no arguments and no (truthy) stdin only
probes: it opens a connection and immediately closes it, sends no message,
never calls `run_daemon`, and reports whether a daemon was listening. -/
theorem C6_probe (stdin : Option String) (ok : Nat → Bool) (daemonCtx : String)
    (apiKeySet : Bool) (gen : String → String → String)
    (hs : hasStdin stdin = false) :
    run_client noArgs stdin ok daemonCtx apiKeySet gen
      = ⟨false, [], true, some (ok 0), [], 0⟩ := by
  have h1 : noArgs.help = false := rfl
  have h2 : noArgs.isolated = false := rfl
  have h3 : noArgs.print_context = false := rfl
  have h4 : noArgs.clear = false := rfl
  have hup : (userPrompt noArgs).isEmpty = true := by decide
  simp [run_client, h1, h2, h3, h4, hup, hs]

/-- Witness for C6_probe: no stdin, a daemon listening. -/
theorem C6_probe_witness :
    run_client noArgs none (fun _ => true) "" false (fun _ _ => "")
      = ⟨false, [], true, some true, [], 0⟩ :=
  C6_probe none (fun _ => true) "" false (fun _ _ => "") rfl

end PipeLLM
